import Mathlib

/-!
# Verification of the predictx x402 payment-verification core

Shallow embedding of parts of the `x402-backend` repository:
`payments/evm_verify.py` (acceptance rule `verify_mon_payment`, wrapper
`verify_payment`) and `payments/base_token.py` (`PaymentVerifier.verify_payment`
polling loop), together with `config.py` constants.

Node responses are modelled as explicit values: a `NodeEnv` holds what the RPC
gateway would return for `eth_getTransactionByHash` and
`eth_getTransactionReceipt` at one point in time (the gateway itself collapses
every transport failure into an absent result, so `Option` captures its whole
observable behaviour).  Python exceptions that escape a function are modelled
with `Except`: a `.error` value is a raised fault, an `.ok` value is a normal
return.  Python string formatting, hex-integer parsing (`int(s, 16)`) and the
`web3` address normalization are modelled by explicit executable functions
below, each documented at its definition.
-/

/-! ## Python-level string helpers -/

/-- ASCII whitespace stripped by Python `str.strip` / `int()` parsing. -/
def isPySpace (c : Char) : Bool :=
  c = ' ' || c = '\t' || c = '\n' || c = '\r' || c = '\x0b' || c = '\x0c'

/-- Strip leading and trailing Python whitespace from a character list. -/
def trimWhite (cs : List Char) : List Char :=
  ((cs.dropWhile isPySpace).reverse.dropWhile isPySpace).reverse

/-- Hexadecimal digit test, either case (Python `int(s, 16)` digits). -/
def isHexDigit (c : Char) : Bool :=
  c.isDigit || ('a' ≤ c && c ≤ 'f') || ('A' ≤ c && c ≤ 'F')

/-- Value of a hexadecimal digit. -/
def hexVal (c : Char) : Nat :=
  if c.isDigit then c.toNat - 48
  else if 'a' ≤ c then c.toNat - 87
  else c.toNat - 55

/-- Accumulate hex digits after the first one, allowing a single underscore
between two digits, as Python `int(s, 16)` does.  A trailing or doubled
underscore is a parse error (`none`). -/
def hexCore : List Char → Nat → Option Nat
  | [], acc => some acc
  | c :: cs, acc =>
    if isHexDigit c then hexCore cs (acc * 16 + hexVal c)
    else if c = '_' then
      match cs with
      | c2 :: cs2 =>
        if isHexDigit c2 then hexCore cs2 (acc * 16 + hexVal c2) else none
      | [] => none
    else none

/-- Models Python `int(s, 16)`: optional surrounding whitespace, optional
sign, optional `0x`/`0X` marker (a single underscore may directly follow it),
then a nonempty run of hex digits with single underscores allowed between
digits.  `none` models the `ValueError` Python raises on malformed input. -/
def parseHexInt (s : String) : Option Int :=
  let cs := trimWhite s.data
  let signed : Int × List Char :=
    match cs with
    | '-' :: r => (-1, r)
    | '+' :: r => (1, r)
    | r => (1, r)
  let body : List Char :=
    match signed.2 with
    | '0' :: x :: r =>
      if x = 'x' || x = 'X' then
        match r with
        | '_' :: r2 => r2
        | _ => r
      else '0' :: x :: r
    | r => r
  match body with
  | c :: r =>
    if isHexDigit c then (hexCore r (hexVal c)).map (fun n => signed.1 * n)
    else none
  | [] => none

/-- Lowercase hexadecimal digit test. -/
def isLowerHex (c : Char) : Bool :=
  c.isDigit || ('a' ≤ c && c ≤ 'f')

/-- Canonicalize an already-lowercased address character list: drop an
optional `0x` marker, require exactly 40 hex digits, and return the `0x`-led
lowercase form. -/
def checksumCore (cs : List Char) : Option String :=
  let ds : List Char :=
    match cs with
    | '0' :: 'x' :: r => r
    | r => r
  if ds.length = 40 && ds.all isLowerHex then
    some (String.mk ('0' :: 'x' :: ds))
  else none

/-- Models `Web3.to_checksum_address` (from the `web3`/`eth_utils` libraries,
outside this repository).  The library first lowercases the input, then
requires an optional `0x` marker followed by exactly 40 hex digits, and
returns the EIP-55 checksummed form; it raises `ValueError` otherwise
(modelled as `none`).  The EIP-55 mixed casing is a function of the lowercase
hex digits alone, so two checksummed addresses are equal exactly when their
lowercase forms are equal; the model therefore uses the `0x`-led lowercase
form as the canonical representative. -/
def toChecksumAddress (s : String) : Option String :=
  checksumCore (s.data.map Char.toLower)

/-- `beginsWith n h` is true when the list `n` starts the list `h`. -/
def beginsWith : List Char → List Char → Bool
  | [], _ => true
  | _ :: _, [] => false
  | c :: cs, d :: ds => c = d && beginsWith cs ds

/-- `containsSubList n h` is true when `n` occurs contiguously inside `h`
(models the Python `in` operator on strings). -/
def containsSubList (needle : List Char) : List Char → Bool
  | [] => beginsWith needle []
  | d :: ds => beginsWith needle (d :: ds) || containsSubList needle ds

/-- Models Python `needle in hay.lower()` for strings: lowercase the haystack
characterwise, then look for the needle as a contiguous run. -/
def containsSubLower (hay needle : String) : Bool :=
  containsSubList needle.data (hay.data.map Char.toLower)

/-! ## Data model: node responses and configuration -/

/-- A transaction record as returned by `eth_getTransactionByHash`.  Each
field is the raw JSON string, `none` when the key is absent (Python
`tx.get(...)` then yields the default).  Field names follow the JSON keys
(`from` is a Lean keyword, hence the `tx` prefix). -/
structure Tx where
  txFrom : Option String
  txTo : Option String
  txValue : Option String
  txChainId : Option String
  deriving Repr, DecidableEq

/-- A receipt record as returned by `eth_getTransactionReceipt`. -/
structure Receipt where
  status : Option String
  deriving Repr, DecidableEq

/-- What the node answers for one transaction hash at one point in time:
`tx` models `get_transaction`, `receipt` models `get_transaction_receipt`
(`none` is both "not found / pending" and any transport failure, which the
gateway collapses into an absent result). -/
structure NodeEnv where
  tx : Option Tx
  receipt : Option Receipt
  deriving Repr, DecidableEq

/-- Process-wide configuration from `config.py` consumed by the verifier:
the payment recipient address and the expected chain id. -/
structure Config where
  paymentRecipientAddress : String
  chainId : Int
  deriving Repr, DecidableEq

/-- `CHAIN_ID = 10143` (Monad Testnet), hard-coded in `config.py`. -/
def CHAIN_ID : Int := 10143

/-- Default `RECIPIENT_ADDRESS` from `config.py`. -/
def PAYMENT_RECIPIENT_ADDRESS : String :=
  "0x0000000000000000000000000000000000000001"

/-- The default configuration built in `config.py`. -/
def defaultConfig : Config :=
  { paymentRecipientAddress := PAYMENT_RECIPIENT_ADDRESS, chainId := CHAIN_ID }

/-! ## The acceptance rule: `verify_mon_payment` -/

/-- Structured rejection reasons.  `verify_mon_payment` itself returns
formatted strings; `renderReason` below produces exactly those strings, and
`verify_mon_payment` is defined as the rendering of the structured run. -/
inductive Reason where
  | invalidAddressFormat (offending : String)
  | notFound (txHash : String)
  | pending (txHash : String)
  | transactionFailed (txHash : String) (status : Option String)
  | senderMismatch (expected got : String)
  | recipientMismatch (expected got : String)
  | noRecipient
  | amountTooLow (expected got : Int)
  | wrongChain (expected got : Int)
  deriving Repr, DecidableEq

/-- A Python exception escaping `verify_mon_payment` uncaught: address
normalization of a transaction field failing, or `int(_, 16)` failing. -/
inductive VerifyErr where
  | badAddress (s : String)
  | badHexInt (s : String)
  deriving Repr, DecidableEq

deriving instance DecidableEq for Except

/-- The exact message strings `verify_mon_payment` formats for each rejection.
For `invalidAddressFormat` the interpolated text is the library exception
message; the model keeps the part the polling loop could observe, namely that
it embeds the offending input string. -/
def renderReason : Reason → String
  | .invalidAddressFormat s => "Invalid address format: " ++ s
  | .notFound h => "Transaction " ++ h ++ " not found on chain"
  | .pending h => "Transaction " ++ h ++ " pending or not yet mined"
  | .transactionFailed h st =>
      "Transaction " ++ h ++ " failed (status: " ++
        (match st with | none => "None" | some s => s) ++ ")"
  | .senderMismatch exp got =>
      "Sender mismatch: expected " ++ exp ++ ", got " ++ got
  | .recipientMismatch exp got =>
      "Recipient mismatch: expected " ++ exp ++ ", got " ++ got
  | .noRecipient => "Transaction has no recipient (contract creation?)"
  | .amountTooLow exp got =>
      "Amount too low: expected " ++ toString exp ++ ", got " ++ toString got
  | .wrongChain exp got =>
      "Wrong chain: expected " ++ toString exp ++ ", got " ++ toString got

/-- `verify_mon_payment` from `payments/evm_verify.py`, with structured
reasons.  Mirrors the source line by line: normalize the two input addresses
(the `try` block catches this failure and returns it as a message), fetch the
transaction, fetch the receipt, then check status, sender, recipient, value
and chain id in that order.  Normalization of the `from` and `to` fields of
the transaction itself and hex parsing of `value`/`chainId` happen outside
the `try` block, so their failures are raised (`Except.error`). -/
def verifyMonPaymentR (cfg : Config) (env : NodeEnv)
    (tx_hash expected_sender : String) (expected_amount_wei : Int) :
    Except VerifyErr (Bool × Option Reason) :=
  match toChecksumAddress expected_sender with
  | none => .ok (false, some (.invalidAddressFormat expected_sender))
  | some sender =>
    match toChecksumAddress cfg.paymentRecipientAddress with
    | none => .ok (false, some (.invalidAddressFormat cfg.paymentRecipientAddress))
    | some recipient =>
      match env.tx with
      | none => .ok (false, some (.notFound tx_hash))
      | some tx =>
        match env.receipt with
        | none => .ok (false, some (.pending tx_hash))
        | some receipt =>
          if receipt.status ≠ some "0x1" then
            .ok (false, some (.transactionFailed tx_hash receipt.status))
          else
            match toChecksumAddress (tx.txFrom.getD "") with
            | none => .error (.badAddress (tx.txFrom.getD ""))
            | some txFromC =>
              if txFromC ≠ sender then
                .ok (false, some (.senderMismatch sender txFromC))
              else
                if tx.txTo = none ∨ tx.txTo = some "" then
                  .ok (false, some .noRecipient)
                else
                  match toChecksumAddress (tx.txTo.getD "") with
                  | none => .error (.badAddress (tx.txTo.getD ""))
                  | some txToC =>
                    if txToC ≠ recipient then
                      .ok (false, some (.recipientMismatch recipient txToC))
                    else
                      match parseHexInt (tx.txValue.getD "0x0") with
                      | none => .error (.badHexInt (tx.txValue.getD "0x0"))
                      | some txValueI =>
                        if txValueI < expected_amount_wei then
                          .ok (false, some (.amountTooLow expected_amount_wei txValueI))
                        else
                          match tx.txChainId with
                          | none => .ok (true, none)
                          | some cid =>
                            if cid = "" then .ok (true, none)
                            else
                              match parseHexInt cid with
                              | none => .error (.badHexInt cid)
                              | some cidI =>
                                if cidI ≠ cfg.chainId then
                                  .ok (false, some (.wrongChain cfg.chainId cidI))
                                else .ok (true, none)

/-- `verify_mon_payment` as the source returns it: a pair of the verdict and
the formatted diagnostic string, or a raised exception. -/
def verify_mon_payment (cfg : Config) (env : NodeEnv)
    (tx_hash expected_sender : String) (expected_amount_wei : Int) :
    Except VerifyErr (Bool × Option String) :=
  (verifyMonPaymentR cfg env tx_hash expected_sender expected_amount_wei).map
    (fun p => (p.1, p.2.map renderReason))

/-! ## The polling loop: `PaymentVerifier.verify_payment` -/

/-- The retry test in the polling loop of `payments/base_token.py`:
`"pending" in error.lower() or "not yet mined" in error.lower()`. -/
def isPendingError (msg : String) : Bool :=
  containsSubLower msg "pending" || containsSubLower msg "not yet mined"

/-- Observable outcome of the polling loop run against a finite trace of node
states.  `returned` is a normal return (with the number of 2-second sleeps the
loop performed before returning), `raised` a propagated exception from
`verify_mon_payment`, and `exhausted` means the trace ended while the loop
would still have kept polling (the real loop would go on; a finite trace
leaves its continuation undetermined). -/
inductive PollOutcome where
  | returned (verified : Bool) (txHash : Option String) (sleeps : Nat)
  | raised (e : VerifyErr) (sleeps : Nat)
  | exhausted (sleeps : Nat)
  deriving Repr, DecidableEq

/-- The `while` loop of `PaymentVerifier.verify_payment`.  Each trace element
`(elapsed, env)` gives the wall-clock reading `time() - start_time` at the
loop-condition check and the node state observed by the two fetches of that
iteration.
If the condition fails, the loop falls through to the timeout return
`(False, None)`.  Otherwise it runs `verify_mon_payment`: on a true verdict it
returns `(True, tx_hash)`; on a false verdict with a truthy (nonempty)
message containing `pending` or `not yet mined` it sleeps 2 seconds and
retries; on any other
nonempty message it returns `(False, None)`; on an empty message it loops
again without sleeping (unreachable from `verify_mon_payment`, kept for
fidelity). -/
def pollLoop (cfg : Config) (tx_hash from_address : String)
    (expected_amount : Int) (timeout : Nat) :
    List (Nat × NodeEnv) → Nat → PollOutcome
  | [], sleeps => .exhausted sleeps
  | (elapsed, env) :: rest, sleeps =>
    if elapsed < timeout then
      match verify_mon_payment cfg env tx_hash from_address expected_amount with
      | .error e => .raised e sleeps
      | .ok (true, _) => .returned true (some tx_hash) sleeps
      | .ok (false, err) =>
        match err with
        | some msg =>
          if msg ≠ "" && isPendingError msg then
            pollLoop cfg tx_hash from_address expected_amount timeout rest (sleeps + 1)
          else if msg ≠ "" then
            .returned false none sleeps
          else
            pollLoop cfg tx_hash from_address expected_amount timeout rest sleeps
        | none =>
          pollLoop cfg tx_hash from_address expected_amount timeout rest sleeps
    else .returned false none sleeps
termination_by structural trace => trace

/-- `PaymentVerifier.verify_payment` from `payments/base_token.py`.  The
transaction hash parameter is `Optional[str] = None`; `if not tx_hash` guards
both `None` and the empty string and returns `(False, None)` before the loop
(hence before any RPC: the result does not depend on the trace).  `timeout`
defaults to 30 in the source. -/
def PaymentVerifier.verify_payment (cfg : Config) (from_address : String)
    (expected_amount : Int) (tx_hash : Option String) (timeout : Nat)
    (trace : List (Nat × NodeEnv)) : PollOutcome :=
  match tx_hash with
  | none => .returned false none 0
  | some h =>
    if h = "" then .returned false none 0
    else pollLoop cfg h from_address expected_amount timeout trace 0

/-! ## The wrapper: `verify_payment` in `evm_verify.py` -/

/-- The dictionary `verify_payment` in `evm_verify.py` returns. -/
structure VerifyPaymentResult where
  verified : Bool
  tx_hash : String
  error : Option String
  tx_info : Option Tx
  deriving Repr, DecidableEq

/-- `verify_payment` from `payments/evm_verify.py`.  Runs the acceptance rule
against the node state `env1`; on success it calls `get_transaction` a second
time — a separate, later fetch observing node state `env2` — and puts that
second record into `tx_info`. -/
def verify_payment (cfg : Config) (env1 env2 : NodeEnv)
    (tx_hash sender_address : String) (amount_wei : Int) :
    Except VerifyErr VerifyPaymentResult :=
  match verify_mon_payment cfg env1 tx_hash sender_address amount_wei with
  | .error e => .error e
  | .ok (true, _) =>
      .ok { verified := true, tx_hash := tx_hash, error := none, tx_info := env2.tx }
  | .ok (false, err) =>
      .ok { verified := false, tx_hash := tx_hash, error := err, tx_info := none }

/-! ## Auxiliary predicates and concrete instances -/

/-- The chain-id clause of the acceptance rule, as the code evaluates it:
the field is absent, or falsy (empty string), or parses to the configured
chain id. -/
def chainClauseOk (cfg : Config) : Option String → Bool
  | none => true
  | some s => s = "" || (parseHexInt s = some cfg.chainId : Bool)

/-- A well-formed sender address, lowercase. -/
def addrLower : String := "0xbbbbbbbbbbbbbbbbbbbbbbbbbbbbbbbbbbbbbbbb"

/-- The same address bytes as `addrLower`, uppercase hex letters. -/
def addrUpper : String := "0xBBBBBBBBBBBBBBBBBBBBBBBBBBBBBBBBBBBBBBBB"

/-- A transaction satisfying every acceptance clause for `defaultConfig`,
sender `addrLower` and any expected amount up to 100: value `0x64` = 100 wei
to the configured recipient, no chain-id field. -/
def sampleTx : Tx :=
  { txFrom := some addrLower, txTo := some PAYMENT_RECIPIENT_ADDRESS,
    txValue := some "0x64", txChainId := none }

/-- Node state where `sampleTx` is mined with a successful receipt. -/
def sampleEnv : NodeEnv :=
  { tx := some sampleTx, receipt := some { status := some "0x1" } }

/-- Node state where the node knows nothing about the hash. -/
def emptyEnv : NodeEnv := { tx := none, receipt := none }

/-! ## Claim theorems -/

/-- C2: the claim says the verification entry points never raise, for every
node response.  The code contradicts this: when the transaction record lacks
the `from` field (so `tx.get("from", "")` yields the empty string), the
checksum normalization on line 124 of `evm_verify.py` runs outside the `try`
block and raises, and the polling entry point propagates the fault.  Shown
here at a concrete mined, successful transaction whose record has no `from`
key. -/
theorem c2_raises_on_missing_from :
    (verify_mon_payment defaultConfig
        { tx := some { txFrom := none, txTo := some PAYMENT_RECIPIENT_ADDRESS,
                       txValue := some "0x64", txChainId := none },
          receipt := some { status := some "0x1" } } "0xdead" addrLower 100
        = .error (.badAddress "")) ∧
    (PaymentVerifier.verify_payment defaultConfig addrLower 100 (some "0xdead") 30
        [(0, { tx := some { txFrom := none, txTo := some PAYMENT_RECIPIENT_ADDRESS,
                            txValue := some "0x64", txChainId := none },
               receipt := some { status := some "0x1" } })]
        = .raised (.badAddress "") 0) :=
  ⟨rfl, rfl⟩

/-- C6: a transaction whose record lacks the `to` field, with a successful
receipt and a matching sender, is rejected with the no-recipient reason, for
every value field (even an unparseable one) and every chain-id field. -/
theorem c6_missing_to_rejected (cfg : Config) (txHash senderIn fromS : String)
    (v? c? : Option String) (amount : Int) (sender recipient : String) (rc : Receipt)
    (hs : toChecksumAddress senderIn = some sender)
    (hr : toChecksumAddress cfg.paymentRecipientAddress = some recipient)
    (hf : toChecksumAddress fromS = some sender)
    (hst : rc.status = some "0x1") :
    verify_mon_payment cfg ⟨some ⟨some fromS, none, v?, c?⟩, some rc⟩ txHash senderIn amount
      = .ok (false, some "Transaction has no recipient (contract creation?)") := by
  simp [verify_mon_payment, verifyMonPaymentR, hs, hr, hf, hst, renderReason, Except.map]

/-- Witness for C6 at a concrete input. -/
theorem c6_missing_to_rejected_witness :
    verify_mon_payment defaultConfig
        ⟨some ⟨some addrLower, none, some "0x64", none⟩, some ⟨some "0x1"⟩⟩
        "0xdead" addrLower 100
      = .ok (false, some "Transaction has no recipient (contract creation?)") :=
  c6_missing_to_rejected defaultConfig "0xdead" addrLower addrLower (some "0x64") none 100
    "0xbbbbbbbbbbbbbbbbbbbbbbbbbbbbbbbbbbbbbbbb"
    "0x0000000000000000000000000000000000000001" ⟨some "0x1"⟩ rfl rfl rfl rfl

/-- C10: an absent or empty transaction hash makes
`PaymentVerifier.verify_payment` return `(False, None)` with zero sleeps and
without consulting the node: the result is the same for every trace. -/
theorem c10_falsy_hash_short_circuit (cfg : Config) (from_address : String)
    (expected_amount : Int) (tx_hash : Option String) (timeout : Nat)
    (hfalsy : tx_hash = none ∨ tx_hash = some "")
    (trace : List (Nat × NodeEnv)) :
    PaymentVerifier.verify_payment cfg from_address expected_amount tx_hash timeout trace
      = .returned false none 0 := by
  rcases hfalsy with h | h <;> subst h <;> simp [PaymentVerifier.verify_payment]

/-- Witness for C10 at a concrete input. -/
theorem c10_falsy_hash_short_circuit_witness :
    PaymentVerifier.verify_payment defaultConfig addrLower 100 (some "") 30 [(0, sampleEnv)]
      = .returned false none 0 :=
  c10_falsy_hash_short_circuit defaultConfig addrLower 100 (some "") 30 (Or.inr rfl)
    [(0, sampleEnv)]

/-- C5: with a transaction and a receipt fetched, receipt status is treated
as success exactly when it is the string `"0x1"`: any other value, including
an absent status field, short-circuits into the transaction-failed rejection,
and a `"0x1"` status never produces that rejection. -/
theorem c5_status_string_exact (cfg : Config) (txHash senderIn : String) (amount : Int)
    (sender recipient : String) (tx : Tx) (rc : Receipt)
    (hs : toChecksumAddress senderIn = some sender)
    (hr : toChecksumAddress cfg.paymentRecipientAddress = some recipient) :
    (rc.status ≠ some "0x1" →
       verifyMonPaymentR cfg ⟨some tx, some rc⟩ txHash senderIn amount
         = .ok (false, some (.transactionFailed txHash rc.status))) ∧
    (rc.status = some "0x1" →
       ∀ h st, verifyMonPaymentR cfg ⟨some tx, some rc⟩ txHash senderIn amount
         ≠ .ok (false, some (.transactionFailed h st))) := by
  constructor
  · intro hne
    simp [verifyMonPaymentR, hs, hr, hne]
  · intro he h st
    simp only [verifyMonPaymentR, hs, hr, he]
    repeat' split
    all_goals simp_all

/-- Witness for C5 at a concrete input: an absent status field rejects as a
failed transaction, status `"0x1"` on the same record does not. -/
theorem c5_status_string_exact_witness :
    (verifyMonPaymentR defaultConfig ⟨some sampleTx, some ⟨none⟩⟩ "0xdead" addrLower 100
       = .ok (false, some (.transactionFailed "0xdead" none))) ∧
    (verifyMonPaymentR defaultConfig ⟨some sampleTx, some ⟨some "0x1"⟩⟩ "0xdead" addrLower 100
       ≠ .ok (false, some (.transactionFailed "0xdead" (some "0x0")))) := by
  have h1 := c5_status_string_exact defaultConfig "0xdead" addrLower 100
    "0xbbbbbbbbbbbbbbbbbbbbbbbbbbbbbbbbbbbbbbbb"
    "0x0000000000000000000000000000000000000001" sampleTx ⟨none⟩ rfl rfl
  have h2 := c5_status_string_exact defaultConfig "0xdead" addrLower 100
    "0xbbbbbbbbbbbbbbbbbbbbbbbbbbbbbbbbbbbbbbbb"
    "0x0000000000000000000000000000000000000001" sampleTx ⟨some "0x1"⟩ rfl rfl
  exact ⟨h1.1 (by simp), h2.2 rfl "0xdead" (some "0x0")⟩

/-- C4: with every other clause passing, a present, truthy, parseable chain-id
field differing from the configured chain id rejects with the wrong-chain
reason, while an absent chain-id field lets verification succeed. -/
theorem c4_chain_id_clause (cfg : Config) (txHash senderIn fromS toS vS : String)
    (amount v : Int) (sender recipient : String) (rc : Receipt)
    (hs : toChecksumAddress senderIn = some sender)
    (hr : toChecksumAddress cfg.paymentRecipientAddress = some recipient)
    (hf : toChecksumAddress fromS = some sender)
    (hto : toS ≠ "") (htoC : toChecksumAddress toS = some recipient)
    (hv : parseHexInt vS = some v) (hamt : ¬ v < amount)
    (hst : rc.status = some "0x1") :
    (∀ cid n, cid ≠ "" → parseHexInt cid = some n → n ≠ cfg.chainId →
       verifyMonPaymentR cfg ⟨some ⟨some fromS, some toS, some vS, some cid⟩, some rc⟩
           txHash senderIn amount
         = .ok (false, some (.wrongChain cfg.chainId n))) ∧
    (verifyMonPaymentR cfg ⟨some ⟨some fromS, some toS, some vS, none⟩, some rc⟩
         txHash senderIn amount
       = .ok (true, none)) := by
  constructor
  · intro cid n hcid hparse hne
    simp [verifyMonPaymentR, hs, hr, hf, hst, hto, htoC, hv, hamt, hcid, hparse, hne]
  · simp [verifyMonPaymentR, hs, hr, hf, hst, hto, htoC, hv, hamt]

/-- Witness for C4 at a concrete input: chain id `0x1` (1 ≠ 10143) rejects,
the same transaction without the chain-id field verifies. -/
theorem c4_chain_id_clause_witness :
    (verifyMonPaymentR defaultConfig
        ⟨some ⟨some addrLower, some PAYMENT_RECIPIENT_ADDRESS, some "0x64", some "0x1"⟩,
         some ⟨some "0x1"⟩⟩ "0xdead" addrLower 100
       = .ok (false, some (.wrongChain 10143 1))) ∧
    (verifyMonPaymentR defaultConfig
        ⟨some ⟨some addrLower, some PAYMENT_RECIPIENT_ADDRESS, some "0x64", none⟩,
         some ⟨some "0x1"⟩⟩ "0xdead" addrLower 100
       = .ok (true, none)) := by
  have h := c4_chain_id_clause defaultConfig "0xdead" addrLower addrLower
    PAYMENT_RECIPIENT_ADDRESS "0x64" 100 100
    "0xbbbbbbbbbbbbbbbbbbbbbbbbbbbbbbbbbbbbbbbb"
    "0x0000000000000000000000000000000000000001" ⟨some "0x1"⟩
    rfl rfl rfl (by decide) rfl rfl (by decide) rfl
  exact ⟨h.1 "0x1" 1 (by decide) rfl (by decide), h.2⟩

/-- C1 counterexample: a transaction passing clauses 1-6 with value exactly
equal to the expected amount (`0x64` = 100) is nonetheless rejected, because
the chain-id clause runs after the amount clause: with chain id `0x1` the
verdict is the wrong-chain rejection, so "value equal to expectedAmount is
accepted" fails as stated. -/
theorem c1_equal_value_rejected_on_wrong_chain :
    (parseHexInt "0x64" = some 100) ∧
    (verifyMonPaymentR defaultConfig
        ⟨some ⟨some addrLower, some PAYMENT_RECIPIENT_ADDRESS, some "0x64", some "0x1"⟩,
         some ⟨some "0x1"⟩⟩ "0xdead" addrLower 100
       ≠ .ok (true, none)) ∧
    (verifyMonPaymentR defaultConfig
        ⟨some ⟨some addrLower, some PAYMENT_RECIPIENT_ADDRESS, some "0x64", some "0x1"⟩,
         some ⟨some "0x1"⟩⟩ "0xdead" addrLower 100
       = .ok (false, some (.wrongChain 10143 1))) := by
  refine ⟨rfl, ?_, rfl⟩
  decide

/-- C1 amended: for a transaction passing clauses 1-6 whose value field
parses, underpayment always rejects with the amount-too-low reason, and —
provided additionally that the chain-id clause passes — the verdict is
acceptance exactly when value ≥ expectedAmount. -/
theorem c1_amount_ge_boundary (cfg : Config) (txHash senderIn fromS toS vS : String)
    (cid? : Option String) (amount v : Int) (sender recipient : String) (rc : Receipt)
    (hs : toChecksumAddress senderIn = some sender)
    (hr : toChecksumAddress cfg.paymentRecipientAddress = some recipient)
    (hf : toChecksumAddress fromS = some sender)
    (hto : toS ≠ "") (htoC : toChecksumAddress toS = some recipient)
    (hst : rc.status = some "0x1")
    (hv : parseHexInt vS = some v) :
    (v < amount →
       verifyMonPaymentR cfg ⟨some ⟨some fromS, some toS, some vS, cid?⟩, some rc⟩
           txHash senderIn amount
         = .ok (false, some (.amountTooLow amount v))) ∧
    (chainClauseOk cfg cid? = true →
       (verifyMonPaymentR cfg ⟨some ⟨some fromS, some toS, some vS, cid?⟩, some rc⟩
            txHash senderIn amount
          = .ok (true, none) ↔ amount ≤ v)) := by
  constructor
  · intro hlt
    simp [verifyMonPaymentR, hs, hr, hf, hst, hto, htoC, hv, hlt]
  · intro hchain
    by_cases hlt : v < amount
    · simp [verifyMonPaymentR, hs, hr, hf, hst, hto, htoC, hv, hlt]
    · rcases cid? with _ | s
      · simp [verifyMonPaymentR, hs, hr, hf, hst, hto, htoC, hv, hlt]
        omega
      · simp [chainClauseOk] at hchain
        rcases hchain with hempty | hparse
        · subst hempty
          simp [verifyMonPaymentR, hs, hr, hf, hst, hto, htoC, hv, hlt]
          omega
        · by_cases hemp : s = ""
          · subst hemp
            simp [verifyMonPaymentR, hs, hr, hf, hst, hto, htoC, hv, hlt]
            omega
          · simp [verifyMonPaymentR, hs, hr, hf, hst, hto, htoC, hv, hlt, hemp, hparse]
            omega

/-- Witness for the amended C1 at concrete inputs: value 100 against expected
amount 100 verifies (boundary), and against expected amount 101 rejects as
amount-too-low. -/
theorem c1_amount_ge_boundary_witness :
    (verifyMonPaymentR defaultConfig ⟨some sampleTx, some ⟨some "0x1"⟩⟩ "0xdead" addrLower 100
       = .ok (true, none)) ∧
    (verifyMonPaymentR defaultConfig ⟨some sampleTx, some ⟨some "0x1"⟩⟩ "0xdead" addrLower 101
       = .ok (false, some (.amountTooLow 101 100))) := by
  have h100 := c1_amount_ge_boundary defaultConfig "0xdead" addrLower addrLower
    PAYMENT_RECIPIENT_ADDRESS "0x64" none 100 100
    "0xbbbbbbbbbbbbbbbbbbbbbbbbbbbbbbbbbbbbbbbb"
    "0x0000000000000000000000000000000000000001" ⟨some "0x1"⟩
    rfl rfl rfl (by decide) rfl rfl rfl
  have h101 := c1_amount_ge_boundary defaultConfig "0xdead" addrLower addrLower
    PAYMENT_RECIPIENT_ADDRESS "0x64" none 101 100
    "0xbbbbbbbbbbbbbbbbbbbbbbbbbbbbbbbbbbbbbbbb"
    "0x0000000000000000000000000000000000000001" ⟨some "0x1"⟩
    rfl rfl rfl (by decide) rfl rfl rfl
  exact ⟨(h100.2 rfl).2 (by omega), h101.1 (by omega)⟩

/-- C8: two expected-sender inputs with the same characters up to hex-letter
casing (and at least one of them well-formed) produce identical results —
verdict and diagnostic — against the same node responses, because the code
checksums the input before any comparison or message formatting. -/
theorem c8_sender_casing_irrelevant (cfg : Config) (env : NodeEnv)
    (txHash s1 s2 : String) (amount : Int) (c : String)
    (hvalid : toChecksumAddress s1 = some c)
    (hcase : s1.data.map Char.toLower = s2.data.map Char.toLower) :
    verify_mon_payment cfg env txHash s1 amount
      = verify_mon_payment cfg env txHash s2 amount := by
  have h2 : toChecksumAddress s2 = some c := by
    rw [toChecksumAddress, ← hcase]
    exact hvalid
  simp only [verify_mon_payment, verifyMonPaymentR, hvalid, h2]

/-- Witness for C8 at a concrete input: the uppercase and lowercase spellings
of the sample sender verify identically. -/
theorem c8_sender_casing_irrelevant_witness :
    verify_mon_payment defaultConfig sampleEnv "0xdead" addrUpper 100
      = verify_mon_payment defaultConfig sampleEnv "0xdead" addrLower 100 :=
  c8_sender_casing_irrelevant defaultConfig sampleEnv "0xdead" addrUpper addrLower 100
    "0xbbbbbbbbbbbbbbbbbbbbbbbbbbbbbbbbbbbbbbbb" rfl rfl

/-- C3 counterexample: the loop decides retryability by substring-matching
the lowercased message against `pending` / `not yet mined`.  For the
transaction hash `"pending"` — a hash the node never returns a transaction
for — every attempt rejects with the NotFound reason (not Pending), yet the
message `Transaction pending not found on chain` matches the retry test, so
the loop sleeps twice across a two-attempt trace instead of returning
`(False, None)` immediately at the first attempt. -/
theorem c3_notfound_hash_named_pending_retries :
    (verify_mon_payment defaultConfig emptyEnv "pending" addrLower 100
       = .ok (false, some "Transaction pending not found on chain")) ∧
    (pollLoop defaultConfig "pending" addrLower 100 30 [(0, emptyEnv), (1, emptyEnv)] 0
       = .exhausted 2) :=
  ⟨rfl, rfl⟩

/-- C3 amended: a rejection whose (nonempty) message does not contain the
substrings `pending` or `not yet mined` makes the loop return `(False, None)`
at once — ignoring the rest of the trace and performing no sleep — while a
rejection whose message does contain one of them (the Pending reason always
does; so do NotFound or TransactionFailed messages whose interpolated hash or
status text contains them) costs one 2-second sleep and a retry. -/
theorem c3_nonpending_message_fails_fast (cfg : Config) (txHash sender msg : String)
    (amt : Int) (timeout elapsed sleeps : Nat) (env : NodeEnv)
    (rest : List (Nat × NodeEnv))
    (hrun : verify_mon_payment cfg env txHash sender amt = .ok (false, some msg))
    (hlt : elapsed < timeout) (hne : msg ≠ "") :
    (isPendingError msg = false →
       pollLoop cfg txHash sender amt timeout ((elapsed, env) :: rest) sleeps
         = .returned false none sleeps) ∧
    (isPendingError msg = true →
       pollLoop cfg txHash sender amt timeout ((elapsed, env) :: rest) sleeps
         = pollLoop cfg txHash sender amt timeout rest (sleeps + 1)) := by
  constructor <;> intro hp <;> simp [pollLoop, hrun, hlt, hne, hp]

/-- Witness for the amended C3 at concrete inputs: a NotFound rejection for
an ordinary hex hash returns immediately with no sleep even though a later
trace entry would have verified; a Pending rejection costs one sleep and
continues with the rest of the trace. -/
theorem c3_nonpending_message_fails_fast_witness :
    (pollLoop defaultConfig "0xdead" addrLower 100 30 [(0, emptyEnv), (1, sampleEnv)] 0
       = .returned false none 0) ∧
    (pollLoop defaultConfig "0xdead" addrLower 100 30
         [(5, ⟨some sampleTx, none⟩), (6, sampleEnv)] 0
       = pollLoop defaultConfig "0xdead" addrLower 100 30 [(6, sampleEnv)] 1) := by
  have h1 := c3_nonpending_message_fails_fast defaultConfig "0xdead" addrLower
    "Transaction 0xdead not found on chain" 100 30 0 0 emptyEnv [(1, sampleEnv)]
    rfl (by decide) (by decide)
  have h2 := c3_nonpending_message_fails_fast defaultConfig "0xdead" addrLower
    "Transaction 0xdead pending or not yet mined" 100 30 5 0 ⟨some sampleTx, none⟩
    [(6, sampleEnv)] rfl (by decide) (by decide)
  exact ⟨h1.1 (by decide), h2.2 (by decide)⟩

/-- The structured acceptance rule pairs a true verdict with no reason. -/
theorem verifyMonPaymentR_true_no_reason (cfg : Config) (env : NodeEnv)
    (txHash sender : String) (amount : Int) (p : Option Reason)
    (h : verifyMonPaymentR cfg env txHash sender amount = .ok (true, p)) :
    p = none := by
  unfold verifyMonPaymentR at h
  repeat' split at h
  all_goals simp_all

/-- C7 counterexample: the wrapper `verify_payment` re-fetches the
transaction after the acceptance rule already succeeded.  Against a node that
satisfied every clause during the attempt (`sampleEnv`, record `sampleTx`)
but returns nothing at the later fetch, the verdict is `verified=true` with
`tx_info = None` — a field taken from a separate later fetch, not the record
that satisfied the clauses. -/
theorem c7_verdict_record_from_later_fetch :
    (verify_payment defaultConfig sampleEnv emptyEnv "0xdead" addrLower 100
       = .ok { verified := true, tx_hash := "0xdead", error := none, tx_info := none }) ∧
    (sampleEnv.tx = some sampleTx) ∧ ((none : Option Tx) ≠ some sampleTx) :=
  ⟨rfl, rfl, by decide⟩

/-- C7 amended: a `verified=true` verdict does require every acceptance
clause to have held simultaneously for the records of the single attempt that
ran the rule (`env1`), but the `tx_info` record in the verdict is whatever a
separate later fetch returns (`env2.tx`), which need not be the record that
satisfied the clauses. -/
theorem c7_verified_clauses_single_attempt (cfg : Config) (env1 env2 : NodeEnv)
    (txHash sender : String) (amount : Int) (r : VerifyPaymentResult)
    (h : verify_payment cfg env1 env2 txHash sender amount = .ok r)
    (hv : r.verified = true) :
    verifyMonPaymentR cfg env1 txHash sender amount = .ok (true, none) ∧
    r.tx_hash = txHash ∧ r.error = none ∧ r.tx_info = env2.tx := by
  rcases hR : verifyMonPaymentR cfg env1 txHash sender amount with e | pr
  · unfold verify_payment verify_mon_payment at h
    rw [hR] at h
    simp [Except.map] at h
  · rcases pr with ⟨b, reas⟩
    unfold verify_payment verify_mon_payment at h
    rw [hR] at h
    rcases b
    · simp [Except.map] at h
      rw [← h] at hv
      simp at hv
    · simp [Except.map] at h
      have hnone := verifyMonPaymentR_true_no_reason cfg env1 txHash sender amount reas hR
      subst hnone
      subst h
      exact ⟨rfl, rfl, rfl, rfl⟩

/-- Witness for the amended C7 at a concrete input. -/
theorem c7_verified_clauses_single_attempt_witness :
    verifyMonPaymentR defaultConfig sampleEnv "0xdead" addrLower 100 = .ok (true, none) := by
  have h := c7_verified_clauses_single_attempt defaultConfig sampleEnv sampleEnv
    "0xdead" addrLower 100
    { verified := true, tx_hash := "0xdead", error := none, tx_info := some sampleTx }
    rfl rfl
  exact h.1

/-- Soundness of the polling loop on any finite trace: a normal return with a
true verdict carries the original hash and is backed by an attempt inside the
trace that ran before the timeout and accepted; a false verdict never carries
a hash. -/
theorem pollLoop_returned_shape (cfg : Config) (txHash sender : String) (amt : Int)
    (timeout : Nat) :
    ∀ (trace : List (Nat × NodeEnv)) (sleeps b h? s),
      pollLoop cfg txHash sender amt timeout trace sleeps = .returned b h? s →
      (b = true → h? = some txHash ∧ ∃ p ∈ trace, p.1 < timeout ∧
          ∃ m, verify_mon_payment cfg p.2 txHash sender amt = .ok (true, m)) ∧
      (b = false → h? = none) := by
  intro trace
  induction trace with
  | nil =>
    intro sleeps b h? s h
    simp [pollLoop] at h
  | cons p rest ih =>
    rcases p with ⟨elapsed, env⟩
    intro sleeps b h? s h
    by_cases hel : elapsed < timeout
    · rcases hm : verify_mon_payment cfg env txHash sender amt with e | pr
      · simp only [pollLoop, if_pos hel, hm] at h
        simp at h
      · rcases pr with ⟨bv, msg⟩
        rcases bv
        · rcases msg with _ | m
          · simp only [pollLoop, if_pos hel, hm] at h
            have hrec := ih sleeps b h? s h
            refine ⟨fun hb => ?_, hrec.2⟩
            obtain ⟨hh, q, hq, hqq⟩ := hrec.1 hb
            exact ⟨hh, q, List.mem_cons_of_mem _ hq, hqq⟩
          · simp only [pollLoop, if_pos hel, hm] at h
            by_cases hcond : (decide (m ≠ "") && isPendingError m) = true
            · rw [if_pos hcond] at h
              have hrec := ih (sleeps + 1) b h? s h
              refine ⟨fun hb => ?_, hrec.2⟩
              obtain ⟨hh, q, hq, hqq⟩ := hrec.1 hb
              exact ⟨hh, q, List.mem_cons_of_mem _ hq, hqq⟩
            · rw [if_neg hcond] at h
              by_cases hm0 : m = ""
              · rw [if_neg (by simp [hm0])] at h
                have hrec := ih sleeps b h? s h
                refine ⟨fun hb => ?_, hrec.2⟩
                obtain ⟨hh, q, hq, hqq⟩ := hrec.1 hb
                exact ⟨hh, q, List.mem_cons_of_mem _ hq, hqq⟩
              · rw [if_pos hm0] at h
                injection h with h1 h2 h3
                subst h1; subst h2
                simp
        · simp only [pollLoop, if_pos hel, hm] at h
          injection h with h1 h2 h3
          subst h1; subst h2
          exact ⟨fun _ => ⟨rfl, ⟨(elapsed, env), List.mem_cons_self _ _, hel, msg, hm⟩⟩, by simp⟩
    · simp only [pollLoop, if_neg hel] at h
      injection h with h1 h2 h3
      subst h1; subst h2
      simp

/-- Completeness of the polling loop: after any prefix of attempts that all
run before the timeout and reject with a retryable (pending-matching,
nonempty) message, an attempt that runs before the timeout and accepts makes
the loop return the true verdict with the original hash, one sleep per
prefix element. -/
theorem pollLoop_pending_then_accept (cfg : Config) (txHash sender : String) (amt : Int)
    (timeout : Nat) :
    ∀ (pre : List (Nat × NodeEnv)) (t : Nat) (env : NodeEnv)
      (rest : List (Nat × NodeEnv)) (sleeps : Nat),
      (∀ p ∈ pre, p.1 < timeout ∧ ∃ msg, verify_mon_payment cfg p.2 txHash sender amt
          = .ok (false, some msg) ∧ msg ≠ "" ∧ isPendingError msg = true) →
      t < timeout →
      (∃ m, verify_mon_payment cfg env txHash sender amt = .ok (true, m)) →
      pollLoop cfg txHash sender amt timeout (pre ++ (t, env) :: rest) sleeps
        = .returned true (some txHash) (sleeps + pre.length) := by
  intro pre
  induction pre with
  | nil =>
    intro t env rest sleeps hpre ht hacc
    obtain ⟨m, hm⟩ := hacc
    simp [pollLoop, ht, hm]
  | cons p pre ih =>
    rcases p with ⟨elapsed, penv⟩
    intro t env rest sleeps hpre ht hacc
    obtain ⟨hel, msg, hm, hne, hp⟩ := hpre (elapsed, penv) (List.mem_cons_self _ _)
    have hrec := ih t env rest (sleeps + 1)
      (fun q hq => hpre q (List.mem_cons_of_mem _ hq)) ht hacc
    have hcond : (decide (msg ≠ "") && isPendingError msg) = true := by
      simp [hne, hp]
    simp only [List.cons_append, pollLoop, if_pos hel, hm, if_pos hcond]
    rw [show pre.append ((t, env) :: rest) = pre ++ (t, env) :: rest from rfl, hrec,
      List.length_cons]
    congr 1
    omega

/-- C9: for a truthy hash, `PaymentVerifier.verify_payment` returns the pair
`(True, original hash)` exactly when the acceptance rule accepts before the
timeout — soundness: a true return carries the original hash and is backed by
an accepting attempt within the timeout, and a false return never carries a
hash; completeness: retryable attempts followed by an accepting attempt
within the timeout yield `(True, hash)`. -/
theorem c9_true_with_hash_iff_accepted (cfg : Config) (from_address h : String)
    (expected_amount : Int) (timeout : Nat) (hne : h ≠ "") :
    (∀ trace b h? s,
        PaymentVerifier.verify_payment cfg from_address expected_amount (some h) timeout trace
          = .returned b h? s →
        (b = true → h? = some h ∧ ∃ p ∈ trace, p.1 < timeout ∧
            ∃ m, verify_mon_payment cfg p.2 h from_address expected_amount = .ok (true, m)) ∧
        (b = false → h? = none)) ∧
    (∀ pre t env rest,
        (∀ p ∈ pre, p.1 < timeout ∧ ∃ msg,
            verify_mon_payment cfg p.2 h from_address expected_amount
              = .ok (false, some msg) ∧ msg ≠ "" ∧ isPendingError msg = true) →
        t < timeout →
        (∃ m, verify_mon_payment cfg env h from_address expected_amount = .ok (true, m)) →
        PaymentVerifier.verify_payment cfg from_address expected_amount (some h) timeout
            (pre ++ (t, env) :: rest)
          = .returned true (some h) pre.length) := by
  constructor
  · intro trace b h? s hrun
    simp only [PaymentVerifier.verify_payment, if_neg hne] at hrun
    exact pollLoop_returned_shape cfg h from_address expected_amount timeout trace 0 b h? s hrun
  · intro pre t env rest hpre ht hacc
    simp only [PaymentVerifier.verify_payment, if_neg hne]
    have happ := pollLoop_pending_then_accept cfg h from_address expected_amount timeout
      pre t env rest 0 hpre ht hacc
    simpa using happ

/-- Witness for C9 at a concrete input: one pending attempt, then an
accepting one, returns `(True, hash)` after a single sleep. -/
theorem c9_true_with_hash_iff_accepted_witness :
    PaymentVerifier.verify_payment defaultConfig addrLower 100 (some "0xdead") 30
        [(0, ⟨some sampleTx, none⟩), (2, sampleEnv)]
      = .returned true (some "0xdead") 1 := by
  have hmain := c9_true_with_hash_iff_accepted defaultConfig addrLower "0xdead" 100 30
    (by decide)
  have happ := hmain.2 [(0, ⟨some sampleTx, none⟩)] 2 sampleEnv []
    (by
      intro p hp
      simp at hp
      subst hp
      exact ⟨by decide, "Transaction 0xdead pending or not yet mined", rfl,
        by decide, by decide⟩)
    (by decide) ⟨none, rfl⟩
  simpa using happ
